import Mathlib

/-!
Shallow embedding of the BlueTunes media controller (src/bluetunes.py):
the D-Bus object resolver (`getInterface`, `getPlayerAndTransport`), the
reconciler tick (`handlePipeline`), the display-surface state updates of the
`BlueTunes` window (`setTrack`, `setPlayPause`, `ready`, `show`, `hide`), and
the user commands (`play`, `next`, `prev`, `volUp`, `volDown`).

The external D-Bus bus is modelled by an `Env` holding the managed-object
catalog and per-object property maps.  Python exceptions that the code can
raise (dereferencing a `None` binding, passing `None` to
`GLib.markup_escape_text`) are modelled with `Except PyError`.
-/

/-- Interface-name constants from the source. -/
def BLUEZ_SERVICE_NAME : String := "org.bluez"

/-- The `org.bluez.MediaPlayer1` interface name. -/
def MEDIA_PLAYER_IFACE : String := BLUEZ_SERVICE_NAME ++ ".MediaPlayer1"

/-- The `org.bluez.MediaTransport1` interface name. -/
def MEDIA_TRANSPORT_IFACE : String := BLUEZ_SERVICE_NAME ++ ".MediaTransport1"

/-- The deprecated `org.bluez.MediaControl1` interface name. -/
def MEDIA_CONTROL_IFACE : String := BLUEZ_SERVICE_NAME ++ ".MediaControl1"

/-- The `org.bluez.Device1` interface name. -/
def MEDIA_DEVICE_IFACE : String := BLUEZ_SERVICE_NAME ++ ".Device1"

/-- A D-Bus property value as the pipeline sees it: a string (`Status`,
`State`), a boolean (`Connected`), an unsigned integer (`Volume`,
`Position`), or a nested dictionary (the `Track` metadata, whose fields are
strings). -/
inductive Value where
  | str (s : String)
  | bool (b : Bool)
  | nat (n : Nat)
  | dict (d : List (String × String))
deriving DecidableEq, Repr

/-- Python exceptions the embedded code can raise: `AttributeError` from
dereferencing a `None` binding, `TypeError` from passing a non-string to
`GLib.markup_escape_text`, and a D-Bus error from a failing `Get`. -/
inductive PyError where
  | attributeError
  | typeError
  | dbusError
deriving DecidableEq, Repr

/-- A queued change notification: the listener enqueues a single-key dict
`\x7biface: changedProps\x7d` for every `PropertiesChanged` signal. -/
structure Notif where
  iface : String
  props : List (String × Value)
deriving DecidableEq, Repr

/-- Display-surface callbacks observed during a tick, in call order:
`ready` (controls enabled), `loading`, window `show`/`hide`, the play/pause
indicator flip, and a track-label update with the composed markup. -/
inductive Event where
  | ready
  | loading
  | windowShow
  | windowHide
  | playPause (b : Bool)
  | trackChanged (m : String)
deriving DecidableEq, Repr

/-- A transport/player command sent over the bus by the command handlers. -/
inductive Cmd where
  | play
  | pause
  | stop
  | next
  | prev
deriving DecidableEq, Repr

/-- The mutable state of the process: the two global bindings
(`mediaPlayer`, `mediaTransport`, stored as resolved object paths), the
event queue (`pipeline`), and the display surface of the `BlueTunes` window
(play/pause indicator, track-label markup, whether `ready` enabled the
controls, and window visibility). -/
structure AppState where
  mediaPlayer : Option String
  mediaTransport : Option String
  queue : List Notif
  playing : Bool
  track : Option String
  controlsEnabled : Bool
  visible : Bool
deriving DecidableEq, Repr

/-- The external bus: the managed-object catalog (object path together with
the interfaces it implements) and per-object property maps for the player
(`GetAll` snapshot / `Get Status`) and the transport (`Get Volume`). -/
structure Env where
  catalog : List (String × List String)
  playerProps : String → List (String × Value)
  transportProps : String → List (String × Value)

/-- Dictionary lookup, first match wins (Python dict keys are unique). -/
def plookup (l : List (String × α)) (k : String) : Option α :=
  (l.find? (fun p => p.1 == k)).map (fun p => p.2)

/-- Substring test on character lists, modelling Python `needle in hay`. -/
def listIsInfix (needle : List Char) : List Char → Bool
  | [] => needle.isEmpty
  | c :: rest => needle.isPrefixOf (c :: rest) || listIsInfix needle rest

/-- Python's `needle in hay` substring containment on strings. -/
def strContains (needle hay : String) : Bool :=
  listIsInfix needle.toList hay.toList

/-- Python slicing `s[:-7]`: the string without its last seven characters
(empty when `s` is shorter than seven characters). -/
def stripLast7 (s : String) : String :=
  String.mk (s.toList.take (s.toList.length - 7))

/-- Python truthiness of a property value (`if props["Connected"]:`). -/
def truthy : Value → Bool
  | Value.bool b => b
  | Value.str s => !s.isEmpty
  | Value.nat n => n != 0
  | Value.dict d => !d.isEmpty

/-- The objects of the catalog implementing `iface`, in catalog order
(the `for obj, props in objs.items()` collection loop of `getInterface`). -/
def candidateObjects (env : Env) (iface : String) : List String :=
  (env.catalog.filter (fun o => o.2.contains iface)).map (fun o => o.1)

/-- `getInterface(bus, iface)`: zero candidates → `None`; one candidate →
that object; several candidates → if a player is bound, the first candidate
containing the player's path with its trailing seven characters removed,
otherwise (or if no candidate contains it) log `AmbiguousObjects` and
return `None`.  The global `mediaPlayer` read by the disambiguation branch
is passed explicitly. -/
def getInterface (env : Env) (iface : String) (mediaPlayer : Option String) :
    Option String :=
  let objects := candidateObjects env iface
  if objects.length = 0 then none
  else if objects.length = 1 then objects.head?
  else
    match mediaPlayer with
    | some mpPath =>
      match objects.find? (fun obj => strContains (stripLast7 mpPath) obj) with
      | some obj => some obj
      | none => none
    | none => none

/-- The transport half of `getPlayerAndTransport`: with the (just set)
global `mediaPlayer` equal to `mp`, resolve the transport unless already
bound; on failure the function returns the literal tuple `(None, None)`. -/
def resolveTransportPart (env : Env) (mp mt : Option String) :
    Option String × Option String :=
  match mt with
  | none =>
    match getInterface env MEDIA_TRANSPORT_IFACE mp with
    | none => (none, none)
    | some t => (mp, some t)
  | some t => (mp, some t)

/-- `getPlayerAndTransport()`: resolve the player if unbound (with no bound
player available to disambiguate), then the transport (with the player just
bound available to disambiguate); either failure returns `(None, None)`.
The returned tuple is what `handlePipeline` assigns back to both globals. -/
def getPlayerAndTransport (env : Env) (mp mt : Option String) :
    Option String × Option String :=
  match mp with
  | none =>
    match getInterface env MEDIA_PLAYER_IFACE none with
    | none => (none, none)
    | some p => resolveTransportPart env (some p) mt
  | some p => resolveTransportPart env (some p) mt

/-- `GLib.markup_escape_text` on one character. -/
def escapeChar (c : Char) : List Char :=
  if c = '&' then "&amp;".toList
  else if c = '<' then "&lt;".toList
  else if c = '>' then "&gt;".toList
  else if c = '\'' then "&apos;".toList
  else if c = '"' then "&quot;".toList
  else [c]

/-- `GLib.markup_escape_text` on a string. -/
def gMarkupEscape (s : String) : String :=
  String.mk (s.toList.map escapeChar).flatten

/-- `GLib.markup_escape_text` applied to a field that may be `None`
(the `props["Title"] if "Title" in props else None` pattern): passing
`None` raises `TypeError`. -/
def escapeOpt : Option String → Except PyError String
  | none => Except.error PyError.typeError
  | some s => Except.ok (gMarkupEscape s)

/-- `BlueTunes.setTrack`: look up `Title`, `Artist`, `Album` (substituting
`None` when absent) and compose the label markup
`"<b>" + artist + "</b> " + title + " " + album`, escaping each field; the
escapes are evaluated left to right, so the first `None` field raises. -/
def setTrackMarkup (d : List (String × String)) : Except PyError String :=
  match escapeOpt (plookup d "Artist") with
  | Except.error e => Except.error e
  | Except.ok a =>
    match escapeOpt (plookup d "Title") with
    | Except.error e => Except.error e
    | Except.ok t =>
      match escapeOpt (plookup d "Album") with
      | Except.error e => Except.error e
      | Except.ok al => Except.ok ("<b>" ++ a ++ "</b> " ++ t ++ " " ++ al)

/-- `setTrack` applied to the raw `Track` property value, which the code
indexes like a dictionary. -/
def setTrackVal : Value → Except PyError String
  | Value.dict d => setTrackMarkup d
  | _ => Except.error PyError.typeError

/-- The `if "Track" in props:` block of the player branch: update the
track label (which may raise) and notify the display. -/
def playerTrackStep (s : AppState) (props : List (String × Value)) :
    Except PyError (AppState × List Event) :=
  match plookup props "Track" with
  | some tv =>
    match setTrackVal tv with
    | Except.error e => Except.error e
    | Except.ok m => Except.ok ({ s with track := some m }, [Event.trackChanged m])
  | none => Except.ok (s, [])

/-- The `if "Status" in props:` block: `"playing"` maps to playing,
anything else to not playing. -/
def statusStep (s : AppState) (props : List (String × Value)) :
    AppState × List Event :=
  match plookup props "Status" with
  | some v =>
    if v = Value.str "playing" then ({ s with playing := true }, [Event.playPause true])
    else ({ s with playing := false }, [Event.playPause false])
  | none => (s, [])

/-- The transport branch: `State` `"idle"` → not playing, `"active"` →
playing, any other value leaves the indicator alone; `Volume` is only
logged. -/
def transportStateStep (s : AppState) (props : List (String × Value)) :
    AppState × List Event :=
  match plookup props "State" with
  | some v =>
    if v = Value.str "idle" then ({ s with playing := false }, [Event.playPause false])
    else if v = Value.str "active" then ({ s with playing := true }, [Event.playPause true])
    else (s, [])
  | none => (s, [])

/-- The device branch: a truthy `Connected` shows the window; a falsy one
clears both bindings and hides the window. -/
def deviceStep (s : AppState) (props : List (String × Value)) :
    AppState × List Event :=
  match plookup props "Connected" with
  | some v =>
    if truthy v then ({ s with visible := true }, [Event.windowShow])
    else ({ s with mediaPlayer := none, mediaTransport := none, visible := false },
          [Event.windowHide])
  | none => (s, [])

/-- Processing of one dequeued notification: dispatch on the interface key
(player: `Track` then `Status`, `Position` ignored; transport; device;
deprecated control and unknown interfaces are logged only). -/
def processItem (s : AppState) (item : Notif) :
    Except PyError (AppState × List Event) :=
  if item.iface = MEDIA_PLAYER_IFACE then
    match playerTrackStep s item.props with
    | Except.error e => Except.error e
    | Except.ok (s1, e1) =>
      let r := statusStep s1 item.props
      Except.ok (r.1, e1 ++ r.2)
  else if item.iface = MEDIA_TRANSPORT_IFACE then
    Except.ok (transportStateStep s item.props)
  else if item.iface = MEDIA_DEVICE_IFACE then
    Except.ok (deviceStep s item.props)
  else if item.iface = MEDIA_CONTROL_IFACE then
    Except.ok (s, [])
  else
    Except.ok (s, [])

/-- The `while not pipeline.empty():` drain loop: process the queued
notifications in arrival order, accumulating display events; a raised
exception aborts the tick. -/
def drainLoop (s : AppState) : List Notif → Except PyError (AppState × List Event)
  | [] => Except.ok (s, [])
  | n :: rest =>
    match processItem s n with
    | Except.error e => Except.error e
    | Except.ok (s1, e1) =>
      match drainLoop s1 rest with
      | Except.error e => Except.error e
      | Except.ok (s2, e2) => Except.ok (s2, e1 ++ e2)

/-- The snapshot block of the unbound branch: `GetAll` properties of the
newly bound player, apply `Status` then `Track`, then call `bt.ready()`. -/
def applySnapshot (s : AppState) (props : List (String × Value)) :
    Except PyError (AppState × List Event) :=
  let r1 := statusStep s props
  match playerTrackStep r1.1 props with
  | Except.error e => Except.error e
  | Except.ok (s2, e2) =>
    Except.ok ({ s2 with controlsEnabled := true }, r1.2 ++ e2 ++ [Event.ready])

/-- One reconciler tick, `handlePipeline()`.  Unbound mode: call
`getPlayerAndTransport` and assign the returned tuple to both globals; if a
player came back, fetch and apply its property snapshot and signal ready.
Bound mode: drain the queue. -/
def handlePipeline (env : Env) (s : AppState) :
    Except PyError (AppState × List Event) :=
  match s.mediaPlayer with
  | none =>
    match getPlayerAndTransport env s.mediaPlayer s.mediaTransport with
    | (some p, mt) =>
      applySnapshot { s with mediaPlayer := some p, mediaTransport := mt }
        (env.playerProps p)
    | (none, mt) =>
      Except.ok ({ s with mediaPlayer := none, mediaTransport := mt }, [])
  | some _ => drainLoop { s with queue := [] } s.queue

/-- `vol + 4 if vol < 124 else 127`, the arithmetic of `volUp`. -/
def volUpVal (vol : Nat) : Nat :=
  if vol < 124 then vol + 4 else 127

/-- `vol - 4 if vol > 4 else 0`, the arithmetic of `volDown`. -/
def volDownVal (vol : Nat) : Nat :=
  if vol > 4 then vol - 4 else 0

namespace BlueTunes

/-- The play/pause toggle handler: `mediaPlayer.Get(..., "Status")` —
raising `AttributeError` when the binding is `None` — then `Pause` if
playing else `Play`. -/
def play (env : Env) (s : AppState) : Except PyError Cmd :=
  match s.mediaPlayer with
  | none => Except.error PyError.attributeError
  | some p =>
    match plookup (env.playerProps p) "Status" with
    | none => Except.error PyError.dbusError
    | some v =>
      if v = Value.str "playing" then Except.ok Cmd.pause else Except.ok Cmd.play

/-- The stop handler: `mediaPlayer.Stop()`. -/
def stop (s : AppState) : Except PyError Cmd :=
  match s.mediaPlayer with
  | none => Except.error PyError.attributeError
  | some _ => Except.ok Cmd.stop

/-- The next-track handler: `mediaPlayer.Next()`. -/
def next (s : AppState) : Except PyError Cmd :=
  match s.mediaPlayer with
  | none => Except.error PyError.attributeError
  | some _ => Except.ok Cmd.next

/-- The previous-track handler: `mediaPlayer.Previous()`. -/
def prev (s : AppState) : Except PyError Cmd :=
  match s.mediaPlayer with
  | none => Except.error PyError.attributeError
  | some _ => Except.ok Cmd.prev

/-- The volume-up handler: `Get Volume` on the transport binding (raising
`AttributeError` when `None`), step the value, `Set Volume`; the result is
the written volume. -/
def volUp (env : Env) (s : AppState) : Except PyError Nat :=
  match s.mediaTransport with
  | none => Except.error PyError.attributeError
  | some t =>
    match plookup (env.transportProps t) "Volume" with
    | none => Except.error PyError.dbusError
    | some (Value.nat vol) => Except.ok (volUpVal vol)
    | some _ => Except.error PyError.typeError

/-- The volume-down handler, symmetric to `volUp`. -/
def volDown (env : Env) (s : AppState) : Except PyError Nat :=
  match s.mediaTransport with
  | none => Except.error PyError.attributeError
  | some t =>
    match plookup (env.transportProps t) "Volume" with
    | none => Except.error PyError.dbusError
    | some (Value.nat vol) => Except.ok (volDownVal vol)
    | some _ => Except.error PyError.typeError

end BlueTunes

/-- Modelled from the spec (refinement side of the batching claim):
deliver the notifications one at a time in arrival order, running one
reconciler tick after each single delivery, and accumulate the states and
display events. -/
def deliverOneAtATime (env : Env) (s : AppState) :
    List Notif → Except PyError (AppState × List Event)
  | [] => Except.ok (s, [])
  | n :: rest =>
    match handlePipeline env { s with queue := s.queue ++ [n] } with
    | Except.error e => Except.error e
    | Except.ok (s1, es1) =>
      match deliverOneAtATime env s1 rest with
      | Except.error e => Except.error e
      | Except.ok (s2, es2) => Except.ok (s2, es1 ++ es2)

/-- A notification whose processing clears the bindings: a `Device1`
notification with a falsy `Connected` field. -/
def isDisconnectNotif (n : Notif) : Bool :=
  if n.iface = MEDIA_DEVICE_IFACE then
    match plookup n.props "Connected" with
    | some v => !truthy v
    | none => false
  else false

/-! Concrete bus objects, environments, states and notifications used by the
witnesses and counterexamples. -/

/-- A typical BlueZ player object path. -/
def playerPath0 : String := "/org/bluez/hci0/dev_AA/player0"

/-- A typical BlueZ transport object path of the same device. -/
def transportPath0 : String := "/org/bluez/hci0/dev_AA/fd0"

/-- A player path of a device exposing two transports. -/
def playerPathB : String := "/org/bluez/hci0/dev_AA_BB/player0"

/-- A bus with one player and one transport, empty property maps. -/
def envBind : Env :=
  ⟨[(playerPath0, [MEDIA_PLAYER_IFACE]), (transportPath0, [MEDIA_TRANSPORT_IFACE])],
   fun _ => [], fun _ => []⟩

/-- A bus with an empty catalog. -/
def envEmpty : Env := ⟨[], fun _ => [], fun _ => []⟩

/-- A bus exposing a player but no transport object. -/
def envPlayerOnly : Env :=
  ⟨[(playerPath0, [MEDIA_PLAYER_IFACE])], fun _ => [], fun _ => []⟩

/-- A bus exposing two transports, both under the bound player's device
path. -/
def envTwoTransports : Env :=
  ⟨[("/org/bluez/hci0/dev_AA_BB/fd0", [MEDIA_TRANSPORT_IFACE]),
    ("/org/bluez/hci0/dev_AA_BB/fd1", [MEDIA_TRANSPORT_IFACE])],
   fun _ => [], fun _ => []⟩

/-- The track dictionary of the initial-bind scenario. -/
def trackABC : Value := Value.dict [("Title", "A"), ("Artist", "B"), ("Album", "C")]

/-- The snapshot of the initial-bind scenario:
`\x7bStatus: "playing", Track: \x7bTitle: "A", Artist: "B", Album: "C"\x7d\x7d`. -/
def snapABC : List (String × Value) := [("Status", Value.str "playing"), ("Track", trackABC)]

/-- A bus whose player snapshot is the initial-bind scenario snapshot. -/
def envSnap : Env :=
  ⟨[(playerPath0, [MEDIA_PLAYER_IFACE]), (transportPath0, [MEDIA_TRANSPORT_IFACE])],
   fun _ => snapABC, fun _ => []⟩

/-- The startup state: unbound, empty queue, controls disabled, window
shown. -/
def s0 : AppState := ⟨none, none, [], false, none, false, true⟩

/-- A bound state with an empty queue. -/
def sBound : AppState :=
  ⟨some playerPath0, some transportPath0, [], false, none, true, true⟩

/-- A `Device1` notification with `Connected = false`. -/
def devFalseN : Notif := ⟨MEDIA_DEVICE_IFACE, [("Connected", Value.bool false)]⟩

/-- A `Device1` notification with `Connected = true`. -/
def devTrueN : Notif := ⟨MEDIA_DEVICE_IFACE, [("Connected", Value.bool true)]⟩

/-- A `MediaTransport1` notification with `State = "active"`. -/
def transpActiveN : Notif := ⟨MEDIA_TRANSPORT_IFACE, [("State", Value.str "active")]⟩

/-- A `MediaTransport1` notification with `State = "idle"`. -/
def transpIdleN : Notif := ⟨MEDIA_TRANSPORT_IFACE, [("State", Value.str "idle")]⟩

/-- A `MediaPlayer1` notification with `Status = "playing"`. -/
def playerPlayingN : Notif := ⟨MEDIA_PLAYER_IFACE, [("Status", Value.str "playing")]⟩

/-- The post-disconnect state with the later `Connected = true` notification
already queued. -/
def sUnboundQ : AppState := { s0 with queue := [devTrueN] }

/-- The state after the re-binding tick on `envBind` from `sUnboundQ`. -/
def sRecover : AppState :=
  { sUnboundQ with
      mediaPlayer := some playerPath0
      mediaTransport := some transportPath0
      controlsEnabled := true }

/-! Helper lemmas about the per-notification steps. -/

/-- `statusStep` only touches the play/pause indicator. -/
lemma statusStep_frame (s : AppState) (props : List (String × Value)) :
    (statusStep s props).1.queue = s.queue ∧
    (statusStep s props).1.mediaPlayer = s.mediaPlayer ∧
    Event.windowShow ∉ (statusStep s props).2 := by
  rcases h : plookup props "Status" with _ | v
  · simp [statusStep, h]
  · by_cases hv : v = Value.str "playing" <;> simp [statusStep, h, hv]

/-- A successful `playerTrackStep` only touches the track label. -/
lemma playerTrackStep_frame {s : AppState} {props : List (String × Value)}
    {r : AppState × List Event} (h : playerTrackStep s props = Except.ok r) :
    r.1.queue = s.queue ∧ r.1.mediaPlayer = s.mediaPlayer ∧
    Event.windowShow ∉ r.2 := by
  unfold playerTrackStep at h
  rcases hl : plookup props "Track" with _ | tv <;> simp only [hl] at h
  · cases h
    simp
  · rcases htv : setTrackVal tv with e | m <;> simp only [htv] at h
    · cases h
    · cases h
      simp

/-- A successful `applySnapshot` preserves the queue and the bindings and
emits no window-show callback. -/
lemma applySnapshot_frame {s : AppState} {props : List (String × Value)}
    {r : AppState × List Event} (h : applySnapshot s props = Except.ok r) :
    r.1.queue = s.queue ∧ r.1.mediaPlayer = s.mediaPlayer ∧
    Event.windowShow ∉ r.2 := by
  obtain ⟨hq1, hp1, hm1⟩ := statusStep_frame s props
  unfold applySnapshot at h
  rcases ht : playerTrackStep (statusStep s props).1 props with e | r2
  · simp only [ht] at h
    cases h
  · obtain ⟨hq2, hp2, hm2⟩ := playerTrackStep_frame ht
    obtain ⟨s2, e2⟩ := r2
    simp only [ht] at h
    cases h
    refine ⟨by simpa [hq1] using hq2, by simpa [hp1] using hp2, ?_⟩
    simp_all

/-- Successful notification processing never touches the event queue. -/
lemma processItem_queue {s : AppState} {n : Notif} {r : AppState × List Event}
    (h : processItem s n = Except.ok r) : r.1.queue = s.queue := by
  unfold processItem at h
  split_ifs at h
  · rcases ht : playerTrackStep s n.props with e | r1
    · simp only [ht] at h
      cases h
    · obtain ⟨hq1, _, _⟩ := playerTrackStep_frame ht
      obtain ⟨s1, e1⟩ := r1
      simp only [ht] at h
      cases h
      obtain ⟨hq2, _, _⟩ := statusStep_frame s1 n.props
      simpa [hq2] using hq1
  · cases h
    obtain ⟨hq, _, _⟩ := statusStep_frame s n.props
    unfold transportStateStep
    rcases hl : plookup n.props "State" with _ | v
    · simp
    · by_cases hv : v = Value.str "idle" <;> by_cases hv2 : v = Value.str "active" <;>
        simp [hl, hv, hv2]
  · cases h
    unfold deviceStep
    rcases hl : plookup n.props "Connected" with _ | v
    · simp
    · by_cases hv : truthy v <;> simp [hl, hv]
  · cases h
    rfl
  · cases h
    rfl

/-- Successful processing of a notification that is not a device disconnect
preserves the player binding. -/
lemma processItem_player {s : AppState} {n : Notif} {r : AppState × List Event}
    (hd : isDisconnectNotif n = false) (h : processItem s n = Except.ok r) :
    r.1.mediaPlayer = s.mediaPlayer := by
  unfold processItem at h
  unfold isDisconnectNotif at hd
  split_ifs at h with h1 h2 h3 h4
  · rcases ht : playerTrackStep s n.props with e | r1
    · simp only [ht] at h
      cases h
    · obtain ⟨_, hp1, _⟩ := playerTrackStep_frame ht
      obtain ⟨s1, e1⟩ := r1
      simp only [ht] at h
      cases h
      obtain ⟨_, hp2, _⟩ := statusStep_frame s1 n.props
      simpa [hp2] using hp1
  · cases h
    unfold transportStateStep
    rcases hl : plookup n.props "State" with _ | v
    · simp
    · by_cases hv : v = Value.str "idle" <;> by_cases hv2 : v = Value.str "active" <;>
        simp [hl, hv, hv2]
  · cases h
    rw [if_pos h3] at hd
    unfold deviceStep
    rcases hl : plookup n.props "Connected" with _ | v
    · simp
    · simp only [hl] at hd
      cases htv : truthy v
      · rw [htv] at hd
        simp at hd
      · simp [hl, htv]
  · cases h
    rfl
  · cases h
    rfl

/-- Replacing the queue by its own value is the identity. -/
lemma queue_eta {s : AppState} (h : s.queue = []) :
    ({ s with queue := [] } : AppState) = s := by
  cases s
  simp_all

/-- In bound mode a tick is exactly the drain loop over the queue. -/
lemma handlePipeline_bound {env : Env} {s : AppState} {p : String}
    (h : s.mediaPlayer = some p) :
    handlePipeline env s = drainLoop { s with queue := [] } s.queue := by
  unfold handlePipeline
  rw [h]

/-- Re-assigning the queue twice keeps only the last assignment. -/
lemma queue_set_set (s : AppState) (a b : List Notif) :
    ({ { s with queue := a } with queue := b } : AppState) = { s with queue := b } := rfl

/-- Core of the batching equivalence: while the state stays bound and no
queued notification is a device disconnect, the drain loop agrees with
delivering the notifications one tick at a time. -/
lemma drain_eq_deliver (env : Env) :
    ∀ (ns : List Notif) (s : AppState) (p : String),
      s.mediaPlayer = some p → s.queue = [] →
      (∀ n ∈ ns, isDisconnectNotif n = false) →
      drainLoop s ns = deliverOneAtATime env s ns := by
  intro ns
  induction ns with
  | nil =>
    intro s p hmp hq hall
    rfl
  | cons n rest ih =>
    intro s p hmp hq hall
    have h1 : ({ s with queue := s.queue ++ [n] } : AppState) = { s with queue := [n] } := by
      simp [hq]
    have hstep : handlePipeline env { s with queue := [n] } = drainLoop s [n] := by
      rw [handlePipeline_bound (s := { s with queue := [n] }) (p := p) hmp]
      rw [queue_set_set, queue_eta hq]
    have hmem : isDisconnectNotif n = false := hall n (List.mem_cons_self n rest)
    have hrest : ∀ m ∈ rest, isDisconnectNotif m = false :=
      fun m hm => hall m (List.mem_cons_of_mem n hm)
    simp only [deliverOneAtATime]
    rw [h1, hstep]
    show drainLoop s (n :: rest) = _
    rcases hpi : processItem s n with e | r1
    · simp only [drainLoop, hpi]
    · obtain ⟨s1, e1⟩ := r1
      have hq1 : s1.queue = [] := by rw [processItem_queue hpi, hq]
      have hp1 : s1.mediaPlayer = some p := by rw [processItem_player hmem hpi, hmp]
      have hih := ih s1 p hp1 hq1 hrest
      simp only [drainLoop, hpi, List.append_nil]
      rw [← hih]

/-- Clearing already-clear bindings is the identity. -/
lemma bindings_eta {s : AppState} (hp : s.mediaPlayer = none)
    (ht : s.mediaTransport = none) :
    ({ s with mediaPlayer := none, mediaTransport := none } : AppState) = s := by
  cases s
  simp_all

/-- Processing a `Connected = true` device notification only shows the
window. -/
lemma processItem_devTrue (s : AppState) :
    processItem s devTrueN =
      Except.ok ({ s with visible := true }, [Event.windowShow]) := rfl

/-- Applying the `\x7bStatus: playing, Track: A/B/C\x7d` snapshot from any state:
play/pause goes to playing, the label becomes `<b>B</b> A C`, the controls
are enabled, and the callbacks fire in snapshot order ending with ready. -/
lemma applySnapshot_snapABC (s : AppState) :
    applySnapshot s snapABC =
      Except.ok ({ s with
          playing := true
          track := some "<b>B</b> A C"
          controlsEnabled := true },
        [Event.playPause true, Event.trackChanged "<b>B</b> A C", Event.ready]) := rfl

/-- C3: every user command handler issued while the relevant binding is
absent dereferences `None` and raises `AttributeError` instead of failing
softly: this is the divergence between the code and the stated
error-handling requirement. -/
theorem c3_unbound_commands_raise (env : Env) (s : AppState)
    (hp : s.mediaPlayer = none) (ht : s.mediaTransport = none) :
    BlueTunes.play env s = Except.error PyError.attributeError ∧
    BlueTunes.next s = Except.error PyError.attributeError ∧
    BlueTunes.prev s = Except.error PyError.attributeError ∧
    BlueTunes.volUp env s = Except.error PyError.attributeError ∧
    BlueTunes.volDown env s = Except.error PyError.attributeError := by
  unfold BlueTunes.play BlueTunes.next BlueTunes.prev BlueTunes.volUp BlueTunes.volDown
  rw [hp, ht]
  exact ⟨rfl, rfl, rfl, rfl, rfl⟩

/-- Witness for C3 at the startup state. -/
theorem c3_witness :
    BlueTunes.play envEmpty s0 = Except.error PyError.attributeError ∧
    BlueTunes.next s0 = Except.error PyError.attributeError ∧
    BlueTunes.prev s0 = Except.error PyError.attributeError ∧
    BlueTunes.volUp envEmpty s0 = Except.error PyError.attributeError ∧
    BlueTunes.volDown envEmpty s0 = Except.error PyError.attributeError :=
  c3_unbound_commands_raise envEmpty s0 rfl rfl

/-- C4: for every current volume in 0..127, volume-up writes
`min (v + 4) 127` and volume-down writes `max (v - 4) 0` (step 4,
saturating at the exact limits); in particular volume-up saturates at 127
from 125 on and volume-down at 0 from 2 on. -/
theorem c4_volume_step_saturates :
    (∀ v : Nat, v ≤ 127 →
      volUpVal v = min (v + 4) 127 ∧
      (volDownVal v : Int) = max ((v : Int) - 4) 0) ∧
    volUpVal 125 = 127 ∧ volUpVal 127 = 127 ∧
    volDownVal 2 = 0 ∧ volDownVal 0 = 0 := by
  refine ⟨fun v hv => ⟨?_, ?_⟩, rfl, rfl, rfl, rfl⟩ <;>
    simp only [volUpVal, volDownVal] <;> split_ifs <;> omega

/-- Witness for C4 at volume 125. -/
theorem c4_witness :
    volUpVal 125 = min (125 + 4) 127 ∧
    (volDownVal 125 : Int) = max ((125 : Int) - 4) 0 :=
  c4_volume_step_saturates.1 125 (by decide)

/-- C5: a reconciler tick while unbound in which player resolution fails
returns the state unchanged — the play/pause flag, track label and the
whole event queue are preserved and no callbacks fire. -/
theorem c5_unbound_tick_preserves (env : Env) (s : AppState)
    (hp : s.mediaPlayer = none) (ht : s.mediaTransport = none)
    (hres : getInterface env MEDIA_PLAYER_IFACE none = none) :
    handlePipeline env s = Except.ok (s, []) := by
  simp only [handlePipeline, hp, ht, getPlayerAndTransport, hres]
  rw [bindings_eta hp ht]

/-- Witness for C5: an empty bus catalog and the startup state. -/
theorem c5_witness : handlePipeline envEmpty s0 = Except.ok (s0, []) :=
  c5_unbound_tick_preserves envEmpty s0 rfl rfl rfl

/-- C1 counterexample: on a bus exposing a player but no transport, player
resolution succeeds and transport resolution is absent, yet after the tick
the player reference is `None` again — the binding is not kept. -/
theorem c1_counterexample :
    getInterface envPlayerOnly MEDIA_PLAYER_IFACE none = some playerPath0 ∧
    getInterface envPlayerOnly MEDIA_TRANSPORT_IFACE (some playerPath0) = none ∧
    Except.map (fun r => r.1.mediaPlayer) (handlePipeline envPlayerOnly s0) =
      Except.ok none := ⟨rfl, rfl, rfl⟩

/-- C1 as amended: when player resolution succeeds but transport resolution
returns absent, `getPlayerAndTransport` returns `(None, None)` and the tick
leaves BOTH references unbound — the just-established player binding is
discarded (it survives only inside the resolution call), no snapshot is
taken and no callback fires. -/
theorem c1_transport_absent_clears_player (env : Env) (s : AppState) (p : String)
    (hp : s.mediaPlayer = none) (ht : s.mediaTransport = none)
    (hplayer : getInterface env MEDIA_PLAYER_IFACE none = some p)
    (htrans : getInterface env MEDIA_TRANSPORT_IFACE (some p) = none) :
    getPlayerAndTransport env s.mediaPlayer s.mediaTransport = (none, none) ∧
    handlePipeline env s = Except.ok (s, []) := by
  have hg : getPlayerAndTransport env none none = (none, none) := by
    simp only [getPlayerAndTransport, hplayer, resolveTransportPart, htrans]
  constructor
  · rw [hp, ht]
    exact hg
  · simp only [handlePipeline, hp, ht, hg]
    rw [bindings_eta hp ht]

/-- Witness for the amended C1 on the player-only bus. -/
theorem c1_witness :
    getPlayerAndTransport envPlayerOnly s0.mediaPlayer s0.mediaTransport =
      (none, none) ∧
    handlePipeline envPlayerOnly s0 = Except.ok (s0, []) :=
  c1_transport_absent_clears_player envPlayerOnly s0 playerPath0 rfl rfl rfl rfl

/-- C2 counterexample: two transport candidates both contain the bound
player's suffix-stripped path, yet resolution does not fail with
`AmbiguousObjects` — it returns the first matching candidate. -/
theorem c2_counterexample :
    (candidateObjects envTwoTransports MEDIA_TRANSPORT_IFACE).length = 2 ∧
    strContains (stripLast7 playerPathB) "/org/bluez/hci0/dev_AA_BB/fd0" = true ∧
    strContains (stripLast7 playerPathB) "/org/bluez/hci0/dev_AA_BB/fd1" = true ∧
    getInterface envTwoTransports MEDIA_TRANSPORT_IFACE (some playerPathB) =
      some "/org/bluez/hci0/dev_AA_BB/fd0" := ⟨rfl, rfl, rfl, rfl⟩

/-- C2 as amended: with two or more candidates and a bound player,
resolution returns the FIRST candidate (in catalog order) whose identifier
contains the player's suffix-stripped path — also when several match — and
fails returning no object exactly when no candidate matches. -/
theorem c2_filter_first_match (env : Env) (iface : String) (p : String)
    (hlen : 2 ≤ (candidateObjects env iface).length) :
    getInterface env iface (some p) =
      (candidateObjects env iface).find?
        (fun obj => strContains (stripLast7 p) obj) := by
  simp only [getInterface]
  rw [if_neg (by omega), if_neg (by omega)]
  rcases hf : (candidateObjects env iface).find?
      (fun obj => strContains (stripLast7 p) obj) with _ | obj <;>
    simp [hf]

/-- Witness for the amended C2 on the two-transport bus. -/
theorem c2_witness :
    getInterface envTwoTransports MEDIA_TRANSPORT_IFACE (some playerPathB) =
      (candidateObjects envTwoTransports MEDIA_TRANSPORT_IFACE).find?
        (fun obj => strContains (stripLast7 playerPathB) obj) :=
  c2_filter_first_match envTwoTransports MEDIA_TRANSPORT_IFACE playerPathB
    (by decide)

/-- C8: a tick that first binds a player whose snapshot is
`\x7bStatus: "playing", Track: \x7bTitle: "A", Artist: "B", Album: "C"\x7d\x7d` applies
the snapshot: play/pause true, track markup composed artist-title-album as
`<b>B</b> A C`, and the ready callback fires. -/
theorem c8_initial_snapshot_ready (env : Env) (s : AppState) (p t : String)
    (hp : s.mediaPlayer = none)
    (hres : getPlayerAndTransport env s.mediaPlayer s.mediaTransport =
      (some p, some t))
    (hsnap : env.playerProps p = snapABC) :
    handlePipeline env s =
      Except.ok ({ s with
          mediaPlayer := some p
          mediaTransport := some t
          playing := true
          track := some "<b>B</b> A C"
          controlsEnabled := true },
        [Event.playPause true, Event.trackChanged "<b>B</b> A C", Event.ready]) := by
  rw [hp] at hres
  simp only [handlePipeline, hp, hres, hsnap]
  exact applySnapshot_snapABC _

/-- Witness for C8 on the snapshot bus. -/
theorem c8_witness :
    handlePipeline envSnap s0 =
      Except.ok ({ s0 with
          mediaPlayer := some playerPath0
          mediaTransport := some transportPath0
          playing := true
          track := some "<b>B</b> A C"
          controlsEnabled := true },
        [Event.playPause true, Event.trackChanged "<b>B</b> A C", Event.ready]) :=
  c8_initial_snapshot_ready envSnap s0 playerPath0 transportPath0 rfl rfl rfl

/-- C9: whenever any of `Title`, `Artist`, `Album` is absent from a `Track`
dictionary, the track-display update substitutes `None` for the missing
field, passes it to markup escaping and raises `TypeError` — both in the
label composition itself and through the pipeline's player branch. -/
theorem c9_missing_track_field_errors (d : List (String × String))
    (props : List (String × Value)) (s : AppState)
    (hmiss : plookup d "Title" = none ∨ plookup d "Artist" = none ∨
      plookup d "Album" = none)
    (htrack : plookup props "Track" = some (Value.dict d)) :
    setTrackMarkup d = Except.error PyError.typeError ∧
    processItem s ⟨MEDIA_PLAYER_IFACE, props⟩ = Except.error PyError.typeError := by
  have h1 : setTrackMarkup d = Except.error PyError.typeError := by
    rcases ha : plookup d "Artist" with _ | a <;>
      rcases ht2 : plookup d "Title" with _ | t <;>
        rcases hal : plookup d "Album" with _ | al <;>
          simp_all [setTrackMarkup, escapeOpt]
  have h2 : playerTrackStep s props = Except.error PyError.typeError := by
    simp only [playerTrackStep, htrack, setTrackVal, h1]
  refine ⟨h1, ?_⟩
  simp [processItem, h2]

/-- Witness for C9: a track dictionary carrying only the artist. -/
theorem c9_witness :
    setTrackMarkup [("Artist", "B")] = Except.error PyError.typeError ∧
    processItem sBound ⟨MEDIA_PLAYER_IFACE, [("Track", Value.dict [("Artist", "B")])]⟩ =
      Except.error PyError.typeError :=
  c9_missing_track_field_errors [("Artist", "B")] _ sBound (Or.inl rfl) rfl

/-- The pipeline dispatch on a `MediaTransport1` notification reduces to
the transport branch. -/
lemma processItem_transport (s : AppState) (props : List (String × Value)) :
    processItem s ⟨MEDIA_TRANSPORT_IFACE, props⟩ =
      Except.ok (transportStateStep s props) := rfl

/-- C10: a transport notification whose `State` is neither `"idle"` nor
`"active"` — with any `Volume` field — leaves the whole state unchanged and
fires no callback; `Volume` is only logged. -/
theorem c10_transport_frame_effect (s : AppState) (props : List (String × Value))
    (hstate : ∀ v, plookup props "State" = some v →
      v ≠ Value.str "idle" ∧ v ≠ Value.str "active") :
    processItem s ⟨MEDIA_TRANSPORT_IFACE, props⟩ = Except.ok (s, []) := by
  rw [processItem_transport]
  rcases hl : plookup props "State" with _ | v
  · simp [transportStateStep, hl]
  · obtain ⟨h1, h2⟩ := hstate v hl
    simp [transportStateStep, hl, h1, h2]

/-- Witness for C10: `State = "pending"` with a `Volume` field. -/
theorem c10_witness :
    processItem sBound ⟨MEDIA_TRANSPORT_IFACE,
        [("State", Value.str "pending"), ("Volume", Value.nat 50)]⟩ =
      Except.ok (sBound, []) :=
  c10_transport_frame_effect sBound _ (by
    intro v hv
    simp [plookup] at hv
    subst hv
    decide)

/-- C6 counterexample: with a `Connected = false` notification queued
before a `State = "active"` notification, the batch drain processes both
(final state playing), while one-at-a-time delivery unbinds at the first
notification and the second tick resolves instead of draining (final state
not playing): the equivalence fails. -/
theorem c6_counterexample :
    Except.map (fun r => r.1.playing)
      (handlePipeline envEmpty { sBound with queue := [devFalseN, transpActiveN] }) =
      Except.ok true ∧
    Except.map (fun r => r.1.playing)
      (deliverOneAtATime envEmpty sBound [devFalseN, transpActiveN]) =
      Except.ok false := ⟨rfl, rfl⟩

/-- C6 as amended: provided no queued notification is a device disconnect,
draining N notifications in one bound-mode tick equals delivering them one
tick at a time in arrival order (same final state, same callbacks); and in
the scenario `Player.Status = "playing"` then `Transport.State = "idle"`
the final play/pause state is not playing — the last writer wins. -/
theorem c6_drain_refines_one_at_a_time :
    (∀ (env : Env) (s : AppState) (ns : List Notif) (p : String),
      s.mediaPlayer = some p → s.queue = [] →
      (∀ n ∈ ns, isDisconnectNotif n = false) →
      handlePipeline env { s with queue := ns } = deliverOneAtATime env s ns) ∧
    Except.map (fun r => r.1.playing)
      (handlePipeline envEmpty { sBound with queue := [playerPlayingN, transpIdleN] }) =
      Except.ok false := by
  constructor
  · intro env s ns p hmp hq hall
    rw [handlePipeline_bound (s := { s with queue := ns }) (p := p) hmp]
    rw [queue_set_set, queue_eta hq]
    exact drain_eq_deliver env ns s p hmp hq hall
  · rfl

/-- Witness for the amended C6: one non-disconnect notification. -/
theorem c6_witness :
    handlePipeline envEmpty { sBound with queue := [transpActiveN] } =
      deliverOneAtATime envEmpty sBound [transpActiveN] :=
  c6_drain_refines_one_at_a_time.1 envEmpty sBound [transpActiveN] playerPath0
    rfl rfl (by decide)

/-- The pipeline dispatch on a `Device1` notification reduces to the device
branch. -/
lemma processItem_device (s : AppState) (props : List (String × Value)) :
    processItem s ⟨MEDIA_DEVICE_IFACE, props⟩ =
      Except.ok (deviceStep s props) := rfl

/-- C7: processing a device notification with a falsy `Connected` always
clears both bindings (unbound regardless of prior state) and fires exactly
the hide callback; and from the resulting unbound state with the later
`Connected = true` notification queued, the re-binding tick fires no show
callback (the queue is untouched while resolving) and the following
bound-mode tick fires exactly one show callback. -/
theorem c7_disconnect_unbinds_and_single_show :
    (∀ (s : AppState) (props : List (String × Value)) (v : Value),
      plookup props "Connected" = some v → truthy v = false →
      processItem s ⟨MEDIA_DEVICE_IFACE, props⟩ =
        Except.ok ({ s with
            mediaPlayer := none
            mediaTransport := none
            visible := false }, [Event.windowHide])) ∧
    (∀ (env : Env) (s s1 : AppState) (es1 : List Event) (p : String),
      s.mediaPlayer = none → s.queue = [devTrueN] →
      handlePipeline env s = Except.ok (s1, es1) →
      s1.mediaPlayer = some p →
      es1.count Event.windowShow = 0 ∧
      handlePipeline env s1 =
        Except.ok ({ s1 with queue := [], visible := true },
          [Event.windowShow])) := by
  constructor
  · intro s props v hl hv
    rw [processItem_device]
    simp [deviceStep, hl, hv]
  · intro env s s1 es1 p hmp hq h hb
    simp only [handlePipeline, hmp] at h
    rcases hg : getPlayerAndTransport env none s.mediaTransport with ⟨mp, mt⟩
    rw [hg] at h
    rcases mp with _ | q
    · simp only [Except.ok.injEq, Prod.mk.injEq] at h
      obtain ⟨hs1, -⟩ := h
      rw [← hs1] at hb
      simp at hb
    · obtain ⟨hq1, hp1, hm1⟩ := applySnapshot_frame h
      have hq2 : s1.queue =
          ({ s with mediaPlayer := some q, mediaTransport := mt } : AppState).queue := hq1
      have hm2 : Event.windowShow ∉ es1 := hm1
      have hq3 : s1.queue = [devTrueN] := by
        rw [hq2]
        exact hq
      refine ⟨List.count_eq_zero.mpr hm2, ?_⟩
      rw [handlePipeline_bound (p := p) hb, hq3]
      simp [drainLoop, processItem_devTrue]

/-- Witness for C7: the bound state, then the two-tick recovery on the
two-object bus. -/
theorem c7_witness :
    (processItem sBound ⟨MEDIA_DEVICE_IFACE, [("Connected", Value.bool false)]⟩ =
      Except.ok ({ sBound with
          mediaPlayer := none
          mediaTransport := none
          visible := false }, [Event.windowHide])) ∧
    ([Event.ready].count Event.windowShow = 0 ∧
      handlePipeline envBind sRecover =
        Except.ok ({ sRecover with queue := [], visible := true },
          [Event.windowShow])) :=
  ⟨c7_disconnect_unbinds_and_single_show.1 sBound _ (Value.bool false) rfl rfl,
   c7_disconnect_unbinds_and_single_show.2 envBind sUnboundQ sRecover [Event.ready]
     playerPath0 rfl rfl rfl rfl⟩
